import Mathlib

/-!
Verification of the calendar grid builder, next-prayer selection,
reverse geocoding fallback, search filters, prayer-time fetching,
dark-mode persistence, detail caching and reading-progress computation
of the prayer/Quran web application.

Each definition is a shallow embedding of the corresponding TypeScript
function; theorems check the documented properties against it.
-/

namespace Spec2Proof

/-! ## Calendar grid builder (src/pages/HijriCalendarPage.tsx, `calendarDays`) -/

/-- One cell of the 7-column month grid, as pushed by `calendarDays`:
`{ date, isCurrentMonth, isToday }`. -/
structure DayCell where
  date : Nat
  isCurrentMonth : Bool
  isToday : Bool
deriving DecidableEq, Repr

/-- The real current date, as read from `new Date()`:
`getFullYear()`, `getMonth()` (zero-based) and `getDate()` (1-based). -/
structure Today where
  year : Nat
  month : Nat
  day : Nat
deriving DecidableEq, Repr

/-- Gregorian leap-year rule, as implemented by the JS `Date` object. -/
def isLeapYear (y : Nat) : Bool :=
  (y % 4 == 0 && y % 100 != 0) || y % 400 == 0

/-- Number of days of zero-based month `m` of year `y`
(the value of `new Date(y, m + 1, 0).getDate()` for `m < 12`). -/
def daysInMonth (y m : Nat) : Nat :=
  if m = 1 then (if isLeapYear y then 29 else 28)
  else if m = 3 ∨ m = 5 ∨ m = 8 ∨ m = 10 then 30
  else 31

/-- Days of year `y` before zero-based month `m` starts. -/
def daysBeforeMonth (y : Nat) : Nat → Nat
  | 0 => 0
  | m + 1 => daysBeforeMonth y m + daysInMonth y m

/-- Sunday-first weekday index (`Date.prototype.getDay`, Sunday = 0) of
day `d` of zero-based month `m` of year `y`, computed by counting days
of the proleptic Gregorian calendar from 1 January of year 1 (a Monday). -/
def dayOfWeek (y m d : Nat) : Nat :=
  (365 * (y - 1) + (y - 1) / 4 + (y - 1) / 400 + daysBeforeMonth y m + d
    - (y - 1) / 100) % 7

/-- Last day of the month preceding zero-based month `m` of year `y`
(the value of `new Date(y, m, 0).getDate()`). -/
def prevMonthLastDay (y m : Nat) : Nat :=
  if m = 0 then 31 else daysInMonth y (m - 1)

/-- The calendar grid builder of HijriCalendarPage: leading cells from the
previous month (the loop `for (let i = prevMonthDays - 1; i >= 0; i--)`
pushing `prevMonthLastDay - i`), the days of the displayed month with the
`isToday` comparison against `todayDate` (which is `-1` when the displayed
month is not the real current month), then trailing cells `1..nextMonthDays`. -/
def calendarDays (y m : Nat) (t : Today) : List DayCell :=
  let prevMonthDays := dayOfWeek y m 1
  let lastDate := daysInMonth y m
  let nextMonthDays := 6 - dayOfWeek y m lastDate
  let pml := prevMonthLastDay y m
  let todayDate : Int := if t.month = m ∧ t.year = y then (t.day : Int) else -1
  ((List.range prevMonthDays).map fun i =>
    ⟨pml - (prevMonthDays - 1 - i), false, false⟩)
  ++ ((List.range lastDate).map fun i =>
    ⟨i + 1, true, decide (((i : Int) + 1) = todayDate)⟩)
  ++ ((List.range nextMonthDays).map fun i => ⟨i + 1, false, false⟩)

/-! ## Next-prayer selection (HomePage `getNextPrayer`,
PrayerTimesPage `nextPrayer`) -/

/-- One entry of the five-prayer scan list: `{ name, time }` with `time`
an `HH:MM` string. -/
structure Prayer where
  name : String
  time : String
deriving DecidableEq, Repr

/-- `String.prototype.split(sep)` for a one-character separator, over the
character list of the string. -/
def splitOnChar (sep : Char) : List Char → List (List Char)
  | [] => [[]]
  | c :: rest =>
    let r := splitOnChar sep rest
    if c == sep then [] :: r
    else
      match r with
      | [] => [[c]]
      | h :: t => (c :: h) :: t

/-- JS `Number(part)` on a split time part, restricted to unsigned decimal
digit strings; `none` models the `NaN` outcome on anything else. -/
def jsNumberAux : List Char → Nat → Option Nat
  | [], acc => some acc
  | c :: rest, acc =>
    if c.isDigit then jsNumberAux rest (acc * 10 + (c.toNat - Char.toNat '0'))
    else none

/-- JS `Number` of a string of decimal digits (`none` = `NaN` otherwise). -/
def jsNumber (l : List Char) : Option Nat :=
  match l with
  | [] => none
  | _ => jsNumberAux l 0

/-- `prayer.time.split(":").map(Number)` followed by `hours * 60 + minutes`.
`none` models the `NaN` outcome of `Number` on a malformed part (the JS
comparison `NaN > currentTime` is then false). -/
def timeToMinutes (t : String) : Option Nat :=
  match splitOnChar ':' t.data with
  | h :: m :: _ =>
    match jsNumber h, jsNumber m with
    | some hv, some mv => some (hv * 60 + mv)
    | _, _ => none
  | _ => none

/-- The loop-body test `prayerTime > currentTime` (false on `NaN`). -/
def laterThanNow (t : String) (currentTime : Nat) : Bool :=
  match timeToMinutes t with
  | some v => currentTime < v
  | none => false

/-- The `for (const prayer of prayers)` scan: first prayer whose time
strictly exceeds `currentTime`, else nothing. -/
def nextPrayerLoop : List Prayer → Nat → Option Prayer
  | [], _ => none
  | p :: rest, now =>
    if laterThanNow p.time now then some p else nextPrayerLoop rest now

/-- `getNextPrayer`: the scan, falling back to `prayers[0]` when every
prayer has passed (`null` when the list is empty, as in HomePage). -/
def getNextPrayer (prayers : List Prayer) (now : Nat) : Option Prayer :=
  match nextPrayerLoop prayers now with
  | some p => some p
  | none => prayers.head?

/-- The fixed five-entry list both pages build from the fetched timings,
in day order: Subuh (Fajr), Dzuhur, Ashar, Maghrib, Isya. -/
def prayerList (fajr dhuhr asr maghrib isha : String) : List Prayer :=
  [⟨"Subuh", fajr⟩, ⟨"Dzuhur", dhuhr⟩, ⟨"Ashar", asr⟩,
    ⟨"Maghrib", maghrib⟩, ⟨"Isya", isha⟩]

/-! ## Reverse geocoding (HomePage and PrayerTimesPage `reverseGeocode`) -/

/-- The structured `address` object of a Nominatim response; each field is
absent (`none`) or a string (possibly empty, which JS treats as falsy). -/
structure NominatimAddress where
  city : Option String
  town : Option String
  village : Option String
  county : Option String
  state : Option String
deriving DecidableEq, Repr

/-- A parsed Nominatim reverse-geocoding response body. -/
structure NominatimResponse where
  address : Option NominatimAddress
  display_name : Option String
deriving DecidableEq, Repr

/-- JS `a || b` for a possibly-absent string `a`: `b` when `a` is
`undefined` or the empty string (both falsy), else `a`. -/
def jsOr (a : Option String) (b : String) : String :=
  match a with
  | some s => if s = "" then b else s
  | none => b

/-- Optional chaining `data.address?.f`. -/
def addrField (a : Option NominatimAddress)
    (f : NominatimAddress → Option String) : Option String :=
  match a with
  | some ad => f ad
  | none => none

/-- `reverseGeocode` of PrayerTimesPage:
`address?.city || address?.town || address?.village || address?.county ||
address?.state || displayName.split(",")[0] || "Lokasi tidak dikenal"`,
with `displayName = data.display_name || "Lokasi tidak dikenal"`.
The argument is `none` on a transport or parse failure (the `catch`
branch sets the sentinel). -/
def reverseGeocodePT (r : Option NominatimResponse) : String :=
  match r with
  | none => "Lokasi tidak dikenal"
  | some data =>
    let displayName := jsOr data.display_name "Lokasi tidak dikenal"
    jsOr (addrField data.address (fun a => a.city))
      (jsOr (addrField data.address (fun a => a.town))
        (jsOr (addrField data.address (fun a => a.village))
          (jsOr (addrField data.address (fun a => a.county))
            (jsOr (addrField data.address (fun a => a.state))
              (jsOr (some (String.mk
                  ((splitOnChar ',' displayName.data).headD [])))
                "Lokasi tidak dikenal")))))

/-- `reverseGeocode` of HomePage:
`data.address?.city || town || village || county || state ||
"Lokasi tidak dikenal"` — note: no `display_name` fallback step. -/
def reverseGeocodeHome (r : Option NominatimResponse) : String :=
  match r with
  | none => "Lokasi tidak dikenal"
  | some data =>
    jsOr (addrField data.address (fun a => a.city))
      (jsOr (addrField data.address (fun a => a.town))
        (jsOr (addrField data.address (fun a => a.village))
          (jsOr (addrField data.address (fun a => a.county))
            (jsOr (addrField data.address (fun a => a.state))
              "Lokasi tidak dikenal"))))

/-! ## Chapter search filters (QuranCard `filtered`,
TafsirPage `filteredSurah`) -/

/-- Does the character list start with the pattern? -/
def listStartsWith : List Char → List Char → Bool
  | _, [] => true
  | [], _ :: _ => false
  | a :: l, b :: p => a == b && listStartsWith l p

/-- Contiguous-substring test on character lists. -/
def listHasSub : List Char → List Char → Bool
  | [], p => p.isEmpty
  | a :: l, p => listStartsWith (a :: l) p || listHasSub l p

/-- JS `String.prototype.includes`. -/
def jsIncludes (s q : String) : Bool := listHasSub s.data q.data

/-- JS `String.prototype.toLowerCase` (ASCII range, as relevant here). -/
def jsToLower (s : String) : String := String.mk (s.data.map Char.toLower)

/-- JS `String.prototype.trim`: strip leading and trailing whitespace. -/
def jsTrim (s : String) : String :=
  String.mk
    (((s.data.dropWhile Char.isWhitespace).reverse.dropWhile
      Char.isWhitespace).reverse)

/-- The fields of one chapter card that the QuranCard filter touches. -/
structure SurahCardData where
  number : Nat
  arabicName : String
  transliteration : String
  translation : String
deriving DecidableEq, Repr

/-- The `filtered` memo of QuranCardPage: trims and lowercases the query;
an empty query returns the whole list; otherwise keeps chapters where any
of `[transliteration.toLowerCase(), translation.toLowerCase(), arabicName,
String(number)]` lowercased contains the query. -/
def quranFiltered (query : String) (list : List SurahCardData) :
    List SurahCardData :=
  let q := jsToLower (jsTrim query)
  if q = "" then list
  else
    list.filter (fun s =>
      [jsToLower s.transliteration, jsToLower s.translation, s.arabicName,
        toString s.number].any (fun v => jsIncludes (jsToLower v) q))

/-- The fields of one chapter list item that the TafsirPage filter touches. -/
structure SurahListItem where
  nomor : Nat
  namaLatin : String
  arti : String
deriving DecidableEq, Repr

/-- The surah filter effect of TafsirPage: when the search term is nonempty
and the list nonempty, keeps chapters whose `namaLatin` or `arti` contains
the lowercased term, or whose `nomor.toString()` contains the raw term;
otherwise the full list. -/
def filteredSurah (searchTerm : String) (surahList : List SurahListItem) :
    List SurahListItem :=
  if searchTerm ≠ "" ∧ surahList ≠ [] then
    surahList.filter (fun s =>
      jsIncludes (jsToLower s.namaLatin) (jsToLower searchTerm)
      || jsIncludes (jsToLower s.arti) (jsToLower searchTerm)
      || jsIncludes (toString s.nomor) searchTerm)
  else surahList

/-! ## Prayer-times request URLs (C6) and response handling (C8) -/

/-- The request URL template literal of HomePage's `fetchPrayerTimes`
(`method=3`). -/
def homeFetchPrayerTimesURL (dateStr lat lng : String) : String :=
  "https://api.aladhan.com/v1/timings/" ++ dateStr ++ "?latitude=" ++ lat
    ++ "&longitude=" ++ lng ++ "&method=3"

/-- The request URL template literal of PrayerTimesPage's
`fetchPrayerTimes` (`method=11`). -/
def ptFetchPrayerTimesURL (dateStr lat lng : String) : String :=
  "https://api.aladhan.com/v1/timings/" ++ dateStr ++ "?latitude=" ++ lat
    ++ "&longitude=" ++ lng ++ "&method=11"

/-- The `data.timings` object fields read by PrayerTimesPage. -/
structure AladhanTimings where
  Fajr : String
  Sunrise : String
  Dhuhr : String
  Asr : String
  Maghrib : String
  Isha : String
  Imsak : String
  Midnight : String
deriving DecidableEq, Repr

/-- The `data.date` strings read by PrayerTimesPage. -/
structure AladhanDate where
  gregorianDate : String
  hijriDate : String
deriving DecidableEq, Repr

/-- A received timings response: HTTP `ok` flag and status, the embedded
application `code`, and the payload. -/
structure AladhanResponse where
  ok : Bool
  status : Nat
  code : Int
  timings : AladhanTimings
  date : AladhanDate
deriving DecidableEq, Repr

/-- The `PrayerTimes` state record populated on success. -/
structure PrayerTimes where
  date : String
  hijriDate : String
  fajr : String
  sunrise : String
  dhuhr : String
  asr : String
  maghrib : String
  isha : String
  imsak : String
  midnight : String
deriving DecidableEq, Repr

/-- PrayerTimesPage's `fetchPrayerTimes` on a received response: throws on
`!response.ok`, throws on `result.code !== 200`, else populates the eight
time fields and the two date strings. -/
def fetchPrayerTimes (resp : AladhanResponse) : Except String PrayerTimes :=
  if !resp.ok then
    Except.error ("HTTP error! status: " ++ toString resp.status)
  else if resp.code ≠ 200 then
    Except.error "Gagal memuat jadwal sholat"
  else
    Except.ok
      { date := resp.date.gregorianDate
        hijriDate := resp.date.hijriDate
        fajr := resp.timings.Fajr
        sunrise := resp.timings.Sunrise
        dhuhr := resp.timings.Dhuhr
        asr := resp.timings.Asr
        maghrib := resp.timings.Maghrib
        isha := resp.timings.Isha
        imsak := resp.timings.Imsak
        midnight := resp.timings.Midnight }

/-! ## Chapter detail caching (QuranCard `SurahDetailPage`,
TafsirPage `fetchTafsir`) -/

/-- A chapter detail payload as cached by SurahDetailPage. -/
structure ApiSurahDetail where
  nomor : Nat
  namaLatin : String
  ayat : List String
deriving DecidableEq, Repr

/-- The EQuran `code`/`message`/`data` wrapper around a detail payload. -/
structure ApiWrapperDetail where
  code : Int
  message : String
  data : ApiSurahDetail
deriving DecidableEq, Repr

/-- The session-storage key `equran_surah_${id}`. -/
def surahCacheKey (id : String) : String := "equran_surah_" ++ id

/-- Outcome of one SurahDetailPage `load()`: the resulting state, whether a
network request was issued, and the session cache afterwards. -/
structure SurahLoadOutcome where
  result : Except String ApiSurahDetail
  fetched : Bool
  cache : String → Option ApiSurahDetail

/-- SurahDetailPage's `load()`: a cache hit returns the parsed cached value
with no fetch; otherwise one fetch is issued (`net = none` models a thrown
fetch/parse error), and a successful payload is stored under the chapter's
key. -/
def surahDetailLoad (cache : String → Option ApiSurahDetail)
    (net : Option ApiWrapperDetail) (id : String) : SurahLoadOutcome :=
  match cache (surahCacheKey id) with
  | some parsed => ⟨Except.ok parsed, false, cache⟩
  | none =>
    match net with
    | none => ⟨Except.error "Terjadi kesalahan", true, cache⟩
    | some json =>
      if json.code ≠ 200 then
        ⟨Except.error (jsOr (some json.message) "Gagal memuat surat"),
          true, cache⟩
      else
        ⟨Except.ok json.data, true,
          fun k => if k = surahCacheKey id then some json.data else cache k⟩

/-- A tafsir payload as held by TafsirPage. -/
structure TafsirData where
  surat : String
  jumlah_ayat : Nat
  tafsir : List String
deriving DecidableEq, Repr

/-- TafsirPage's `fetchTafsir`: always issues the request (second
component `true`) — it consults no cache — and errors when the response
failed (`net = none`). -/
def fetchTafsir (net : Option TafsirData) (suratId : String) :
    Except String TafsirData × Bool :=
  (match net with
   | none => Except.error "Gagal memuat data tafsir"
   | some d => Except.ok d, true)

/-- Number of network requests issued by loading a tafsir chapter and then
revisiting the same chapter (two invocations of `fetchTafsir`). -/
def tafsirRevisitFetches (net : Option TafsirData) (id : String) : Nat :=
  (if (fetchTafsir net id).2 then 1 else 0)
    + (if (fetchTafsir net id).2 then 1 else 0)

/-! ## Dark-mode preference (SettingsPage `useDarkMode`) -/

/-- The `useState` initializer of `useDarkMode`: a saved `"true"` string
means dark, any other saved string means light, and with nothing saved the
system `prefers-color-scheme` value is used. -/
def loadDarkMode (storage : Option String) (systemDark : Bool) : Bool :=
  match storage with
  | some saved => saved == "true"
  | none => systemDark

/-- The persisting effect `localStorage.setItem("darkMode",
String(isDarkMode))` after setting the preference to `v`. -/
def storeDarkMode (v : Bool) : Option String :=
  some (if v then "true" else "false")

/-- One UI toggle: the switch passes the negation of the current value to
`toggleDarkMode`, and the effect persists it. -/
def toggleDarkModeStore (storage : Option String) (systemDark : Bool) :
    Option String :=
  storeDarkMode (!(loadDarkMode storage systemDark))

/-! ## Reading progress (QuranCard `progress`) -/

/-- The `progress` memo of QuranCard:
`0` when `lastReadAyah` is falsy (absent or `0`) or `ayahCount === 0`, else
`Math.min(100, Math.round((lastReadAyah / ayahCount) * 100))`; the rounding
`Math.round(x) = floor(x + 1/2)` is computed exactly as
`(200 * n + c) / (2 * c)` in integer arithmetic. -/
def progress (lastReadAyah : Option Nat) (ayahCount : Nat) : Nat :=
  match lastReadAyah with
  | none => 0
  | some n =>
    if n = 0 ∨ ayahCount = 0 then 0
    else min 100 ((200 * n + ayahCount) / (2 * ayahCount))

/-! ### Helper lemmas -/

theorem le_daysInMonth (y m : Nat) : 28 ≤ daysInMonth y m := by
  unfold daysInMonth
  split
  · split <;> omega
  · split <;> omega

theorem le_prevMonthLastDay (y m : Nat) : 28 ≤ prevMonthLastDay y m := by
  unfold prevMonthLastDay
  split
  · omega
  · exact le_daysInMonth y (m - 1)

theorem dayOfWeek_lt (y m d : Nat) : dayOfWeek y m d < 7 :=
  Nat.mod_lt _ (by omega)

theorem dayOfWeek_eq (y m d : Nat) :
    dayOfWeek y m d
      = ((365 * (y - 1) + (y - 1) / 4 + (y - 1) / 400 + daysBeforeMonth y m
          - (y - 1) / 100) + d) % 7 := by
  unfold dayOfWeek
  omega

theorem countP_map_eq {α β : Type} (f : α → β) (p : β → Bool) (l : List α) :
    (l.map f).countP p = l.countP (fun a => p (f a)) := by
  induction l with
  | nil => rfl
  | cons a l ih => simp [List.countP_cons, ih]

theorem countP_range_todayDate (n : Nat) (d : Int) :
    (List.range n).countP (fun i : Nat => decide (((i : Int) + 1) = d))
      = if 1 ≤ d ∧ d ≤ (n : Int) then 1 else 0 := by
  induction n with
  | zero =>
    simp only [List.range_zero, List.countP_nil]
    split
    · omega
    · rfl
  | succ n ih =>
    rw [List.range_succ, List.countP_append, ih]
    simp only [List.countP_cons, List.countP_nil, decide_eq_true_eq]
    split_ifs <;> omega

theorem map_range_succ_eq_range' (n : Nat) (f : Nat → DayCell)
    (g : Nat → DayCell) (h : ∀ i, i < n → f i = g (i + 1)) :
    (List.range n).map f = (List.range' 1 n).map g := by
  rw [List.range'_eq_map_range, List.map_map]
  refine List.map_congr_left (fun i hi => ?_)
  rw [h i (List.mem_range.mp hi)]
  simp [Function.comp, Nat.add_comm]

/-! ### Claims C1 and C4 -/

theorem map_range_eq_range'_map (n s : Nat) (f g : Nat → DayCell)
    (h : ∀ i, i < n → f i = g (s + i)) :
    (List.range n).map f = (List.range' s n).map g := by
  rw [List.range'_eq_map_range, List.map_map]
  exact List.map_congr_left (fun i hi => h i (List.mem_range.mp hi))

/-- Claim C1: for every year and zero-based month (`m < 12`), `calendarDays`
returns a sequence whose length is a multiple of 7, whose cells with
`isCurrentMonth = true` are exactly the days `1..N` of the target month in
order (each exactly once), and which marks at most one cell `isToday` — and
none at all when the displayed month differs from the real current month. -/
theorem C1_calendar_grid (y m : Nat) (t : Today) (hm : m < 12) :
    (calendarDays y m t).length % 7 = 0 ∧
    ((calendarDays y m t).filter (fun c => c.isCurrentMonth)).map (fun c => c.date)
      = List.range' 1 (daysInMonth y m) ∧
    (calendarDays y m t).countP (fun c => c.isToday) ≤ 1 ∧
    (¬ (t.month = m ∧ t.year = y) →
      (calendarDays y m t).countP (fun c => c.isToday) = 0) := by
  have hN := le_daysInMonth y m
  refine ⟨?_, ?_, ?_, ?_⟩
  · simp only [calendarDays, List.length_append, List.length_map,
      List.length_range]
    rw [dayOfWeek_eq y m 1, dayOfWeek_eq y m (daysInMonth y m)]
    omega
  · simp only [calendarDays, List.filter_append, List.filter_map,
      Function.comp_def, List.filter_false, List.filter_true,
      List.map_nil, List.nil_append, List.append_nil, List.map_map]
    rw [List.range'_eq_map_range]
    refine List.map_congr_left (fun i hi => ?_)
    simp [Function.comp, Nat.add_comm]
  · simp only [calendarDays, List.countP_append, countP_map_eq]
    rw [countP_range_todayDate]
    simp only [List.countP_false, Function.const_apply]
    split_ifs <;> omega
  · intro h
    simp only [calendarDays, List.countP_append, countP_map_eq, if_neg h]
    rw [countP_range_todayDate]
    simp only [List.countP_false, Function.const_apply]
    have hno : ¬ (1 ≤ (-1 : Int) ∧ (-1 : Int) ≤ (daysInMonth y m : Int)) := by
      omega
    rw [if_neg hno]

/-- Claim C4: `calendarDays y m t` consists of exactly `dayOfWeek y m 1`
leading filler cells holding the tail of the previous month in ascending
order (ending at its last day), then the days `1..N` of the target month,
then exactly `6 - dayOfWeek y m N` trailing filler cells numbered from 1
upward; every cell not belonging to the displayed month is never `isToday`. -/
theorem C4_calendar_fillers (y m : Nat) (t : Today) (hm : m < 12) :
    calendarDays y m t =
      ((List.range' (prevMonthLastDay y m + 1 - dayOfWeek y m 1)
          (dayOfWeek y m 1)).map (fun d => ⟨d, false, false⟩))
      ++ ((List.range' 1 (daysInMonth y m)).map
        (fun d => ⟨d, true,
          decide ((d : Int)
            = if t.month = m ∧ t.year = y then (t.day : Int) else -1)⟩))
      ++ ((List.range' 1 (6 - dayOfWeek y m (daysInMonth y m))).map
        (fun d => ⟨d, false, false⟩)) ∧
    ∀ c ∈ calendarDays y m t, c.isCurrentMonth = false → c.isToday = false := by
  have hw : dayOfWeek y m 1 ≤ prevMonthLastDay y m := le_trans
    (le_trans (Nat.le_of_lt (dayOfWeek_lt y m 1)) (by omega))
    (le_prevMonthLastDay y m)
  constructor
  · have hA := map_range_eq_range'_map (dayOfWeek y m 1)
      (prevMonthLastDay y m + 1 - dayOfWeek y m 1)
      (fun i => ⟨prevMonthLastDay y m - (dayOfWeek y m 1 - 1 - i),
        false, false⟩)
      (fun d => ⟨d, false, false⟩)
      (fun i hi => by
        simp only [DayCell.mk.injEq]
        exact ⟨by omega, trivial, trivial⟩)
    have hB := map_range_eq_range'_map (daysInMonth y m) 1
      (fun i => ⟨i + 1, true,
        decide (((i : Int) + 1)
          = if t.month = m ∧ t.year = y then (t.day : Int) else -1)⟩)
      (fun d => ⟨d, true,
        decide ((d : Int)
          = if t.month = m ∧ t.year = y then (t.day : Int) else -1)⟩)
      (fun i hi => by
        simp only [DayCell.mk.injEq]
        refine ⟨by omega, trivial, ?_⟩
        rw [decide_eq_decide]
        constructor <;> (intro h'; omega))
    have hC := map_range_eq_range'_map (6 - dayOfWeek y m (daysInMonth y m)) 1
      (fun i => ⟨i + 1, false, false⟩)
      (fun d => ⟨d, false, false⟩)
      (fun i hi => by
        simp only [DayCell.mk.injEq]
        exact ⟨by omega, trivial, trivial⟩)
    simp only [calendarDays]
    rw [hA, hB, hC]
  · intro c hc hcur
    simp only [calendarDays, List.mem_append, List.mem_map,
      List.mem_range] at hc
    rcases hc with (⟨i, hi, rfl⟩ | ⟨i, hi, rfl⟩) | ⟨i, hi, rfl⟩ <;> simp_all

/-- Closed instance of C4: the decomposition of the October 2025 grid with
the real date 12 October 2025. -/
theorem C4_calendar_fillers_witness :
    calendarDays 2025 9 ⟨2025, 9, 12⟩ =
      ((List.range' (prevMonthLastDay 2025 9 + 1 - dayOfWeek 2025 9 1)
          (dayOfWeek 2025 9 1)).map (fun d => ⟨d, false, false⟩))
      ++ ((List.range' 1 (daysInMonth 2025 9)).map
        (fun d => ⟨d, true,
          decide ((d : Int)
            = if (9 : Nat) = 9 ∧ (2025 : Nat) = 2025 then ((12 : Nat) : Int)
              else -1)⟩))
      ++ ((List.range' 1 (6 - dayOfWeek 2025 9 (daysInMonth 2025 9))).map
        (fun d => ⟨d, false, false⟩)) :=
  (C4_calendar_fillers 2025 9 ⟨2025, 9, 12⟩ (by decide)).1

/-- Closed instance of C1 at October 2025 with the real date 12 October 2025. -/
theorem C1_calendar_grid_witness :
    (calendarDays 2025 9 ⟨2025, 9, 12⟩).length % 7 = 0 ∧
    ((calendarDays 2025 9 ⟨2025, 9, 12⟩).filter (fun c => c.isCurrentMonth)).map
        (fun c => c.date)
      = List.range' 1 (daysInMonth 2025 9) ∧
    (calendarDays 2025 9 ⟨2025, 9, 12⟩).countP (fun c => c.isToday) ≤ 1 ∧
    (¬ ((9 : Nat) = 9 ∧ (2025 : Nat) = 2025) →
      (calendarDays 2025 9 ⟨2025, 9, 12⟩).countP (fun c => c.isToday) = 0) :=
  C1_calendar_grid 2025 9 ⟨2025, 9, 12⟩ (by decide)

/-! ### Claim C2 -/

theorem nextPrayerLoop_eq_find (l : List Prayer) (now : Nat) :
    nextPrayerLoop l now = l.find? (fun p => laterThanNow p.time now) := by
  induction l with
  | nil => rfl
  | cons p rest ih =>
    simp only [nextPrayerLoop, List.find?_cons]
    cases h : laterThanNow p.time now <;> simp [h, ih]

/-- Claim C2: for any five prayer-time strings in day order and any current
minute-of-day, `getNextPrayer` returns the first prayer of the scan list
whose time converted to minutes strictly exceeds `now` (the semantics of
`List.find?`), falling back to the first entry — today's Subuh/Fajr with
its unchanged label and time — when every prayer has passed; a time exactly
equal to `now` does not count as upcoming. -/
theorem C2_next_prayer (fajr dhuhr asr maghrib isha : String) (now : Nat) :
    getNextPrayer (prayerList fajr dhuhr asr maghrib isha) now
      = some
        (((prayerList fajr dhuhr asr maghrib isha).find?
            (fun p => laterThanNow p.time now)).getD ⟨"Subuh", fajr⟩) ∧
    ((∀ p ∈ prayerList fajr dhuhr asr maghrib isha,
        laterThanNow p.time now = false) →
      getNextPrayer (prayerList fajr dhuhr asr maghrib isha) now
        = some ⟨"Subuh", fajr⟩) ∧
    (∀ t, timeToMinutes t = some now → laterThanNow t now = false) := by
  refine ⟨?_, ?_, ?_⟩
  · simp only [getNextPrayer, nextPrayerLoop_eq_find]
    cases hf : (prayerList fajr dhuhr asr maghrib isha).find?
        (fun p => laterThanNow p.time now) with
    | some p => simp
    | none => simp [prayerList]
  · intro h
    have hf : (prayerList fajr dhuhr asr maghrib isha).find?
        (fun p => laterThanNow p.time now) = none :=
      List.find?_eq_none.mpr (fun p hp => by simp [h p hp])
    simp only [getNextPrayer, nextPrayerLoop_eq_find, hf]
    simp [prayerList]
  · intro t ht
    simp [laterThanNow, ht]

/-- Closed instance of C2: at 23:50 (minute 1430) every prayer of a normal
day has passed, and the function returns today's Subuh entry unchanged. -/
theorem C2_next_prayer_witness :
    getNextPrayer (prayerList "04:30" "11:58" "15:10" "17:55" "19:05") 1430
      = some ⟨"Subuh", "04:30"⟩ :=
  (C2_next_prayer "04:30" "11:58" "15:10" "17:55" "19:05" 1430).2.1
    (by decide)

/-! ### Claim C3 -/

/-- Claim C3 as stated is false on HomePage's resolver: on a response with
no structured address fields it returns the sentinel, not the first
comma-segment of `display_name` (which PrayerTimesPage's resolver does
return on the same response). -/
theorem C3_counterexample :
    reverseGeocodeHome
        (some ⟨some ⟨none, none, none, none, none⟩,
          some "Jakarta, Indonesia"⟩)
      = "Lokasi tidak dikenal" ∧
    reverseGeocodePT
        (some ⟨some ⟨none, none, none, none, none⟩,
          some "Jakarta, Indonesia"⟩)
      = "Jakarta" ∧
    ("Lokasi tidak dikenal" : String) ≠ "Jakarta" := by decide

/-- Claim C3 amended: both resolvers use the fallback order city > town >
village > county > state, and resolve any failure to the sentinel; only
PrayerTimesPage's resolver then falls back to the first comma-segment of
the display name, while HomePage's goes directly to the sentinel. -/
theorem C3_geocode_fallback (ad : NominatimAddress) (dn : Option String) :
    (reverseGeocodePT none = "Lokasi tidak dikenal"
      ∧ reverseGeocodeHome none = "Lokasi tidak dikenal") ∧
    (∀ c, c ≠ "" → ad.city = some c →
      reverseGeocodePT (some ⟨some ad, dn⟩) = c
      ∧ reverseGeocodeHome (some ⟨some ad, dn⟩) = c) ∧
    ((ad.city = none ∨ ad.city = some "") →
     (ad.town = none ∨ ad.town = some "") →
     (ad.village = none ∨ ad.village = some "") →
      ∀ c, c ≠ "" → ad.county = some c →
      reverseGeocodePT (some ⟨some ad, dn⟩) = c
      ∧ reverseGeocodeHome (some ⟨some ad, dn⟩) = c) ∧
    ((ad.city = none ∨ ad.city = some "") →
     (ad.town = none ∨ ad.town = some "") →
     (ad.village = none ∨ ad.village = some "") →
     (ad.county = none ∨ ad.county = some "") →
     (ad.state = none ∨ ad.state = some "") →
      (reverseGeocodePT (some ⟨some ad, dn⟩)
        = (if String.mk ((splitOnChar ','
              (jsOr dn "Lokasi tidak dikenal").data).headD []) = ""
           then "Lokasi tidak dikenal"
           else String.mk ((splitOnChar ','
              (jsOr dn "Lokasi tidak dikenal").data).headD []))
      ∧ reverseGeocodeHome (some ⟨some ad, dn⟩)
          = "Lokasi tidak dikenal")) := by
  refine ⟨⟨rfl, rfl⟩, ?_, ?_, ?_⟩
  · intro c hne hc
    constructor <;> simp [reverseGeocodePT, reverseGeocodeHome, jsOr,
      addrField, hc, hne]
  · intro h1 h2 h3 c hne hc
    rcases h1 with h1 | h1 <;> rcases h2 with h2 | h2 <;>
      rcases h3 with h3 | h3 <;>
      (constructor <;> simp [reverseGeocodePT, reverseGeocodeHome, jsOr,
        addrField, h1, h2, h3, hc, hne])
  · intro h1 h2 h3 h4 h5
    rcases h1 with h1 | h1 <;> rcases h2 with h2 | h2 <;>
      rcases h3 with h3 | h3 <;> rcases h4 with h4 | h4 <;>
      rcases h5 with h5 | h5 <;>
      (constructor <;> simp [reverseGeocodePT, reverseGeocodeHome, jsOr,
        addrField, h1, h2, h3, h4, h5])

/-- Closed instance of C3 (amended): a response carrying only `county` and
`state` resolves to the county on both pages. -/
theorem C3_geocode_fallback_witness :
    reverseGeocodePT
        (some ⟨some ⟨none, none, none, some "Bekasi", some "Jawa Barat"⟩,
          none⟩) = "Bekasi"
    ∧ reverseGeocodeHome
        (some ⟨some ⟨none, none, none, some "Bekasi", some "Jawa Barat"⟩,
          none⟩) = "Bekasi" :=
  (C3_geocode_fallback ⟨none, none, none, some "Bekasi", some "Jawa Barat"⟩
      none).2.2.1 (Or.inl rfl) (Or.inl rfl) (Or.inl rfl) "Bekasi"
    (by decide) rfl

/-! ### Claim C5 -/

/-- Claim C5 as stated is false: the QuranCard filter keeps a chapter whose
Arabic name contains the query even though the lowercased transliteration,
the lowercased meaning and the number string all do not. -/
theorem C5_counterexample :
    quranFiltered "y" [⟨5, "xyz", "Aa", "Bb"⟩] = [⟨5, "xyz", "Aa", "Bb"⟩] ∧
    jsIncludes (jsToLower "Aa") "y" = false ∧
    jsIncludes (jsToLower "Bb") "y" = false ∧
    jsIncludes (toString (5 : Nat)) "y" = false := by decide

/-- Claim C5 amended: membership in the QuranCard filter result is
case-insensitive containment of the trimmed lowercased query in the
transliteration, the translated meaning, the Arabic name, or the decimal
number string (an effectively-empty query keeps everything); membership in
the TafsirPage filter is containment in the lowercased `namaLatin` or
`arti`, or of the raw term in the number string; chapter 2 is always kept
when filtering by `"2"`. -/
theorem C5_search_filter (query : String) (l : List SurahCardData)
    (l2 : List SurahListItem) :
    (∀ s, s ∈ quranFiltered query l ↔
      s ∈ l ∧ (jsToLower (jsTrim query) = "" ∨
        jsIncludes (jsToLower (jsToLower s.transliteration))
          (jsToLower (jsTrim query)) = true ∨
        jsIncludes (jsToLower (jsToLower s.translation))
          (jsToLower (jsTrim query)) = true ∨
        jsIncludes (jsToLower s.arabicName) (jsToLower (jsTrim query))
          = true ∨
        jsIncludes (jsToLower (toString s.number)) (jsToLower (jsTrim query))
          = true)) ∧
    (∀ s, s ∈ filteredSurah query l2 ↔
      s ∈ l2 ∧ (query = "" ∨
        jsIncludes (jsToLower s.namaLatin) (jsToLower query) = true ∨
        jsIncludes (jsToLower s.arti) (jsToLower query) = true ∨
        jsIncludes (toString s.nomor) query = true)) ∧
    (∀ s, s ∈ l → s.number = 2 → s ∈ quranFiltered "2" l) := by
  have hq : ∀ (q : String) (s : SurahCardData), s ∈ quranFiltered q l ↔
      s ∈ l ∧ (jsToLower (jsTrim q) = "" ∨
        jsIncludes (jsToLower (jsToLower s.transliteration))
          (jsToLower (jsTrim q)) = true ∨
        jsIncludes (jsToLower (jsToLower s.translation))
          (jsToLower (jsTrim q)) = true ∨
        jsIncludes (jsToLower s.arabicName) (jsToLower (jsTrim q))
          = true ∨
        jsIncludes (jsToLower (toString s.number)) (jsToLower (jsTrim q))
          = true) := by
    intro q s
    simp only [quranFiltered]
    split
    · rename_i hempty
      simp [hempty]
    · rename_i hne
      simp only [List.mem_filter, List.any_cons, List.any_nil,
        Bool.or_eq_true, Bool.or_false]
      constructor
      · rintro ⟨hs, hmatch⟩
        exact ⟨hs, Or.inr (by tauto)⟩
      · rintro ⟨hs, hmatch⟩
        refine ⟨hs, ?_⟩
        rcases hmatch with h | h
        · exact absurd h hne
        · tauto
  refine ⟨hq query, ?_, ?_⟩
  · intro s
    simp only [filteredSurah]
    split
    · rename_i hcond
      simp only [List.mem_filter, Bool.or_eq_true]
      constructor
      · rintro ⟨hs, hmatch⟩
        exact ⟨hs, Or.inr (by tauto)⟩
      · rintro ⟨hs, hmatch⟩
        refine ⟨hs, ?_⟩
        rcases hmatch with h | h
        · exact absurd h hcond.1
        · tauto
    · rename_i hcond
      rw [not_and_or] at hcond
      constructor
      · intro hs
        refine ⟨hs, ?_⟩
        rcases hcond with h | h
        · simp at h
          exact Or.inl h
        · simp at h
          subst h
          simp at hs
      · exact fun h => h.1
  · intro s hs h2
    refine (hq "2" s).mpr ⟨hs, Or.inr (Or.inr (Or.inr (Or.inr ?_)))⟩
    rw [h2]
    decide

/-- Closed instance of C5 (amended): chapter 2 is kept when filtering a
singleton list by `"2"`. -/
theorem C5_search_filter_witness :
    (⟨2, "alif", "Al-Baqarah", "Sapi Betina"⟩ : SurahCardData)
      ∈ quranFiltered "2" [⟨2, "alif", "Al-Baqarah", "Sapi Betina"⟩] :=
  (C5_search_filter "2" [⟨2, "alif", "Al-Baqarah", "Sapi Betina"⟩] []).2.2
    ⟨2, "alif", "Al-Baqarah", "Sapi Betina"⟩ (by decide) rfl

/-! ### Claim C6 -/

/-- Claim C6 as stated is false: on equal coordinates and date the two
pages build different URLs (different calculation-method constants). -/
theorem C6_counterexample :
    homeFetchPrayerTimesURL "12-10-2025" "-6.2" "106.8"
      ≠ ptFetchPrayerTimesURL "12-10-2025" "-6.2" "106.8" := by decide

/-- Claim C6 amended: the two request URLs agree on everything up to and
including `&method=`, and differ exactly in the method constant — `3` on
HomePage against `11` on PrayerTimesPage. -/
theorem C6_method_constants (dateStr lat lng : String) :
    homeFetchPrayerTimesURL dateStr lat lng
      = ("https://api.aladhan.com/v1/timings/" ++ dateStr ++ "?latitude="
          ++ lat ++ "&longitude=" ++ lng ++ "&method=") ++ "3" ∧
    ptFetchPrayerTimesURL dateStr lat lng
      = ("https://api.aladhan.com/v1/timings/" ++ dateStr ++ "?latitude="
          ++ lat ++ "&longitude=" ++ lng ++ "&method=") ++ "11" := by
  constructor <;>
    (apply String.ext
     simp only [homeFetchPrayerTimesURL, ptFetchPrayerTimesURL,
       String.data_append, List.append_assoc, List.cons_append,
       List.nil_append])

/-! ### Claim C7 -/

/-- Claim C7: writing the dark-mode preference and reloading yields the
written value, and a double toggle restores the loaded preference (and
restores the stored string exactly whenever the store holds a value that a
write produced). -/
theorem C7_dark_mode_roundtrip :
    (∀ (v sys : Bool), loadDarkMode (storeDarkMode v) sys = v) ∧
    (∀ (σ : Option String) (sys : Bool),
      loadDarkMode (toggleDarkModeStore (toggleDarkModeStore σ sys) sys) sys
        = loadDarkMode σ sys) ∧
    (∀ (v sys : Bool),
      toggleDarkModeStore (toggleDarkModeStore (storeDarkMode v) sys) sys
        = storeDarkMode v) := by
  refine ⟨?_, ?_, ?_⟩
  · intro v sys
    cases v <;> rfl
  · intro σ sys
    match σ with
    | none => cases sys <;> rfl
    | some s =>
      by_cases hs : s = "true"
      · subst hs
        rfl
      · simp [toggleDarkModeStore, loadDarkMode, storeDarkMode, hs]
  · intro v sys
    cases v <;> rfl

/-! ### Claim C8 -/

/-- Claim C8: `fetchPrayerTimes` surfaces an error exactly when the HTTP
response is not ok or the embedded code differs from 200; on success it
populates precisely the eight time fields and the paired Gregorian and
Hijri date strings of the response. -/
theorem C8_fetch_prayer_times (resp : AladhanResponse) :
    ((∃ e, fetchPrayerTimes resp = Except.error e)
      ↔ (resp.ok = false ∨ resp.code ≠ 200)) ∧
    (resp.ok = true → resp.code = 200 →
      fetchPrayerTimes resp = Except.ok
        { date := resp.date.gregorianDate
          hijriDate := resp.date.hijriDate
          fajr := resp.timings.Fajr
          sunrise := resp.timings.Sunrise
          dhuhr := resp.timings.Dhuhr
          asr := resp.timings.Asr
          maghrib := resp.timings.Maghrib
          isha := resp.timings.Isha
          imsak := resp.timings.Imsak
          midnight := resp.timings.Midnight }) := by
  obtain ⟨ok, status, code, tms, dt⟩ := resp
  cases ok <;> by_cases hc : code = 200 <;>
    simp [fetchPrayerTimes, hc]

/-- Closed instance of C8: a successful response populates all ten
fields. -/
theorem C8_fetch_prayer_times_witness :
    fetchPrayerTimes
        ⟨true, 200, 200,
          ⟨"04:37", "05:49", "11:49", "15:12", "17:49", "18:59",
            "04:27", "23:05"⟩,
          ⟨"12-10-2025", "19-04-1447"⟩⟩
      = Except.ok
        ⟨"12-10-2025", "19-04-1447", "04:37", "05:49", "11:49", "15:12",
          "17:49", "18:59", "04:27", "23:05"⟩ :=
  (C8_fetch_prayer_times _).2 rfl rfl

/-! ### Claim C9 -/

/-- Claim C9 as stated is false for the commentary fetcher: loading a
tafsir chapter and revisiting it issues two network requests —
`fetchTafsir` consults no cache. -/
theorem C9_counterexample :
    tafsirRevisitFetches (some ⟨"Al-Fatihah", 7, []⟩) "1" = 2 ∧
    (fetchTafsir (some ⟨"Al-Fatihah", 7, []⟩) "1").2 = true := by decide

/-- Claim C9 amended: the verse detail fetcher is cached per chapter — a
cache hit issues no request and returns the cached value, and after a
successful miss the payload is stored so an immediate revisit issues no
request — while the tafsir fetcher issues a request on every load. -/
theorem C9_detail_caching (cache : String → Option ApiSurahDetail)
    (net : Option ApiWrapperDetail) (netT : Option TafsirData)
    (id : String) :
    (∀ d, cache (surahCacheKey id) = some d →
      (surahDetailLoad cache net id).fetched = false
      ∧ (surahDetailLoad cache net id).result = Except.ok d) ∧
    (∀ json, cache (surahCacheKey id) = none → net = some json →
      json.code = 200 →
      (surahDetailLoad cache net id).fetched = true
      ∧ (surahDetailLoad cache net id).cache (surahCacheKey id)
          = some json.data
      ∧ (surahDetailLoad (surahDetailLoad cache net id).cache net id).fetched
          = false) ∧
    (fetchTafsir netT id).2 = true := by
  refine ⟨?_, ?_, rfl⟩
  · intro d hd
    constructor <;> simp [surahDetailLoad, hd]
  · intro json hd hnet hcode
    subst hnet
    refine ⟨?_, ?_, ?_⟩ <;> simp [surahDetailLoad, hd, hcode]

/-- Closed instance of C9 (amended): a warm cache for chapter 1 means no
request and the cached value. -/
theorem C9_detail_caching_witness :
    (surahDetailLoad
        (fun k => if k = surahCacheKey "1" then some ⟨1, "Al-Fatihah", []⟩
          else none) none "1").fetched = false
    ∧ (surahDetailLoad
        (fun k => if k = surahCacheKey "1" then some ⟨1, "Al-Fatihah", []⟩
          else none) none "1").result = Except.ok ⟨1, "Al-Fatihah", []⟩ :=
  (C9_detail_caching
      (fun k => if k = surahCacheKey "1" then some ⟨1, "Al-Fatihah", []⟩
        else none) none none "1").1 ⟨1, "Al-Fatihah", []⟩ (by decide)

/-! ### Claim C10 -/

/-- Claim C10: the reading-progress percentage is always between 0 and 100
(a `Nat` capped by `min 100`): absent `lastReadAyah` gives 0, a zero
`ayahCount` gives 0, and the cap holds in particular when the last-read
ayah exceeds the ayah count. -/
theorem C10_progress_bounds :
    (∀ (l : Option Nat) (c : Nat), progress l c ≤ 100) ∧
    (∀ c, progress none c = 0) ∧
    (∀ l, progress l 0 = 0) ∧
    (∀ n c, c < n → progress (some n) c ≤ 100) := by
  have hb : ∀ (l : Option Nat) (c : Nat), progress l c ≤ 100 := by
    intro l c
    match l with
    | none => exact Nat.zero_le _
    | some n =>
      simp only [progress]
      split
      · exact Nat.zero_le _
      · exact Nat.min_le_left _ _
  refine ⟨hb, fun c => rfl, ?_, fun n c _ => hb (some n) c⟩
  intro l
  match l with
  | none => rfl
  | some n => simp [progress]

/-- Closed instance of C10: a last-read ayah far beyond the ayah count is
still capped at 100. -/
theorem C10_progress_bounds_witness : progress (some 300) 7 ≤ 100 :=
  C10_progress_bounds.2.2.2 300 7 (by decide)

end Spec2Proof
